import Mathlib

/-!
Shallow embedding of the `geo-analyzer` backend core
(`src/backend/geotiff_engine.py` and the query-parameter / band-validation
layer of `src/backend/server.py`).

Conventions of the embedding:
* Python floats that carry coordinates and distances are modelled as `ℚ`.
* Statistic values may be NaN, so they are modelled by `PyFloat`
  (`num q`, `nan`, or `sqrtq q` standing for the real square root of `q`,
  which is what `arr.std()` produces on a nonempty value set).
* Calls into external libraries that the source treats as black boxes are
  parameters of the embedding:
  - `Ext.fwd` models `pyproj.Geod(ellps="WGS84").fwd` (total: it returns a
    destination point for every distance, including zero and negative ones);
  - `Ext.diff` models `shapely`'s `Polygon.difference`;
  - `Ext.reprF` models CPython's float-to-string formatting used in f-strings;
  - the zonal-statistics engine handed to the orchestrators is a parameter
    `cs : Polygon → List String → List (String × PyFloat)`, matching the
    component boundary between the orchestrators and `compute_stats`.
* The mask-and-aggregate fallback of `compute_stats` is embedded concretely
  over a model of a numpy masked array (`MaskedArr`).
-/

namespace GeoAnalyzer

/-- A coordinate pair `(lon, lat)` (or `(x, y)` in a projected CRS). -/
abbrev Coord := ℚ × ℚ

/-- A shapely polygon: one exterior ring and a list of interior rings (holes).
Rings are coordinate lists; a closed ring repeats its first coordinate last. -/
structure Polygon where
  exterior : List Coord
  holes : List (List Coord)
deriving Repr, DecidableEq

/-- The rings of a polygon: the exterior ring followed by the holes. -/
def ringsOf (p : Polygon) : List (List Coord) := p.exterior :: p.holes

/-- A Python float as it appears in a stats mapping: an exact rational,
the square root of a rational (produced by `std`), or NaN. -/
inductive PyFloat
  | num (q : ℚ)
  | nan
  | sqrtq (q : ℚ)
deriving Repr, DecidableEq

/-- The external libraries the geometry layer calls.
`fwd lon lat az dist` models `Geod.fwd`, `diff` models shapely difference,
`reprF` models CPython float formatting (`f"{x}"`). -/
structure Ext where
  fwd : ℚ → ℚ → ℚ → ℚ → Coord
  diff : Polygon → Polygon → Polygon
  reprF : ℚ → String

/-- One labeled output unit, from the `QueryResult` dataclass
(`geotiff_engine.py` lines 42-46). -/
structure QueryResult where
  label : String
  geometry_geojson : Polygon
  stats : List (String × PyFloat)
deriving Repr, DecidableEq

/-- `CIRCLE_PTS = 360` (`geotiff_engine.py` line 24). -/
def CIRCLE_PTS : ℕ := 360

/-- The coordinate list built inside `geodesic_circle` (lines 138-144):
`n` destination points at azimuths `np.linspace(0, 360, n, endpoint=False)`
(the i-th azimuth is `360*i/n`), then `coords.append(coords[0])`.
`pts.take 1` is `[coords[0]]` whenever `n ≠ 0`. -/
def circleRing (fwd : ℚ → ℚ → ℚ → ℚ → Coord) (lon lat radius_m : ℚ) (n : ℕ) :
    List Coord :=
  let pts := (List.range n).map fun i : ℕ =>
    fwd lon lat (360 * (i : ℚ) / (n : ℚ)) radius_m
  pts ++ pts.take 1

/-- The polygon `geodesic_circle` hands to `Polygon(coords)` when it returns. -/
def circlePoly (fwd : ℚ → ℚ → ℚ → ℚ → Coord) (lon lat radius_m : ℚ) (n : ℕ) :
    Polygon :=
  { exterior := circleRing fwd lon lat radius_m n, holes := [] }

/-- `geodesic_circle(lon, lat, radius_m, n)` (lines 136-145). The two
raise sites a call can hit are modelled: `coords[0]` raises `IndexError`
when `n = 0`, and shapely's `LinearRing` constructor rejects rings of fewer
than 4 coordinates. `Geod.fwd` itself is total (defined for zero and
negative distances), so no other failure can occur. -/
def geodesic_circle (fwd : ℚ → ℚ → ℚ → ℚ → Coord) (lon lat radius_m : ℚ)
    (n : ℕ := CIRCLE_PTS) : Except String Polygon :=
  if n = 0 then .error "IndexError: list index out of range"
  else
    let coords := circleRing fwd lon lat radius_m n
    if coords.length < 4 then
      .error "ValueError: A linearring requires at least 4 coordinates"
    else .ok { exterior := coords, holes := [] }

/-- Model of the invariant shapely maintains on every geometry it builds:
each stored ring is a `LinearRing`, and a `LinearRing` is closed on
construction (the first coordinate is appended when first ≠ last). The
output of `Polygon.difference` is built from `LinearRing`s, so its rings
satisfy this normalisation. -/
def shapelyCloseRing (r : List Coord) : List Coord :=
  if r.head? = r.getLast? then r else r ++ r.take 1

/-- Ring normalisation applied to every ring of a shapely-produced polygon. -/
def shapelyNormalize (p : Polygon) : Polygon :=
  { exterior := shapelyCloseRing p.exterior,
    holes := p.holes.map shapelyCloseRing }

/-- `geodesic_annulus(lon, lat, inner_m, outer_m, n)` (lines 148-151):
`outer.difference(inner)` where both are geodesic circles. The difference
itself is the external parameter `E.diff`; its output carries shapely's
closed-ring invariant, made explicit by `shapelyNormalize`. -/
def geodesic_annulus (E : Ext) (lon lat inner_m outer_m : ℚ)
    (n : ℕ := CIRCLE_PTS) : Except String Polygon :=
  match geodesic_circle E.fwd lon lat outer_m n with
  | .error e => .error e
  | .ok outer =>
    match geodesic_circle E.fwd lon lat inner_m n with
    | .error e => .error e
    | .ok inner => .ok (shapelyNormalize (E.diff outer inner))

/-- `shapely.geometry.box(minx, miny, maxx, maxy)`: the counter-clockwise
closed exterior ring shapely produces for a rectangle. -/
def shapelyBox (minx miny maxx maxy : ℚ) : Polygon :=
  { exterior :=
      [(maxx, miny), (maxx, maxy), (minx, maxy), (minx, miny), (maxx, miny)],
    holes := [] }

/-- `rect_from_center(lon, lat, half_w_m, half_h_m)` (lines 154-160):
forward-geodesic destinations at bearings 0/180/90/270 give the
north/south/east/west extents, then `box(w_lon, s_lat, e_lon, n_lat)`. -/
def rect_from_center (fwd : ℚ → ℚ → ℚ → ℚ → Coord)
    (lon lat half_w_m half_h_m : ℚ) : Polygon :=
  let nP := fwd lon lat 0 half_h_m
  let sP := fwd lon lat 180 half_h_m
  let eP := fwd lon lat 90 half_w_m
  let wP := fwd lon lat 270 half_w_m
  shapelyBox wP.1 sP.2 eP.1 nP.2

/-- The WGS84 bounds ring built in `RasterStore.load` (lines 73-96): the four
corners of the raster's bounding box, reprojected to WGS84 when the native
CRS is not geographic, then `ring.append(ring[0])`. `toWgs` models the
`Transformer.transform` call. -/
def boundsRing (toWgs : Coord → Coord) (geographic : Bool)
    (left bottom right top : ℚ) : List Coord :=
  let corners :=
    if geographic then
      [(left, bottom), (right, bottom), (right, top), (left, top)]
    else
      [toWgs (left, bottom), toWgs (right, bottom),
       toWgs (right, top), toWgs (left, top)]
  corners ++ corners.take 1

/-- A ring is closed when its first and last coordinates agree (vacuously
true for the empty ring, which has neither). -/
def closedRing (r : List Coord) : Prop := r.head? = r.getLast?

instance (r : List Coord) : Decidable (closedRing r) := by
  unfold closedRing; infer_instance

/-! ## Zonal statistics: the mask-and-aggregate fallback of `compute_stats`

The fallback (`geotiff_engine.py` lines 179-216) obtains, from
`rasterio.mask.mask(..., filled=False, all_touched=True)` followed by
`np.ma.masked_where(arr == nodata, arr)`, a numpy masked array: pixel
values of which some are masked (outside the polygon or nodata-valued).
`MaskedArr` models that array as a list of `(value, masked)` pairs.
The aggregation loop over the requested statistic names (lines 198-216)
is embedded in `statValue` and `compute_stats_fallback`. -/

/-- A numpy masked array: `(pixel value, is-masked)` pairs. -/
abbrev MaskedArr := List (ℚ × Bool)

/-- The unmasked values (`arr.compressed()` in numpy terms). -/
def maCompressed (a : MaskedArr) : List ℚ :=
  (a.filter fun p => !p.2).map Prod.fst

/-- Largest element of a list (meaningful for nonempty lists). -/
def listMax (l : List ℚ) : ℚ := l.foldl max (l.headD 0)

/-- Smallest element of a list (meaningful for nonempty lists). -/
def listMin (l : List ℚ) : ℚ := l.foldl min (l.headD 0)

/-- `np.median` of a value list: middle element of the sorted list, or the
average of the two middle elements for an even count. -/
def listMedian (l : List ℚ) : ℚ :=
  let s := List.insertionSort (· ≤ ·) l
  if l.length % 2 = 1 then s.getD (l.length / 2) 0
  else (s.getD (l.length / 2 - 1) 0 + s.getD (l.length / 2) 0) / 2

/-- `float(arr.sum())`: masked elements are ignored; when every element is
masked numpy returns the masked constant, and `float()` of the masked
constant is NaN (numpy warns "converting a masked element to nan"). -/
def ma_sum (a : MaskedArr) : PyFloat :=
  if maCompressed a = [] then .nan else .num (maCompressed a).sum

/-- `float(arr.mean())`: mean of the unmasked values; the masked constant
(hence NaN after `float()`) when every element is masked. -/
def ma_mean (a : MaskedArr) : PyFloat :=
  if maCompressed a = [] then .nan
  else .num ((maCompressed a).sum / (maCompressed a).length)

/-- `float(arr.max())`: NaN (via the masked constant) when all masked. -/
def ma_max (a : MaskedArr) : PyFloat :=
  if maCompressed a = [] then .nan else .num (listMax (maCompressed a))

/-- `float(arr.min())`: NaN (via the masked constant) when all masked. -/
def ma_min (a : MaskedArr) : PyFloat :=
  if maCompressed a = [] then .nan else .num (listMin (maCompressed a))

/-- `float(arr.count())`: the number of unmasked elements, always a number. -/
def ma_count (a : MaskedArr) : PyFloat := .num (maCompressed a).length

/-- `float(arr.std())`: population standard deviation (numpy `ddof=0`),
the square root of the mean squared deviation; the masked constant (hence
NaN) when every element is masked. -/
def ma_std (a : MaskedArr) : PyFloat :=
  if maCompressed a = [] then .nan
  else
    let vs := maCompressed a
    let m := vs.sum / vs.length
    .sqrtq (((vs.map fun x => (x - m) ^ 2).sum) / vs.length)

/-- `float(np.ma.median(arr))`: median of the unmasked values; the masked
constant (hence NaN) when every element is masked. -/
def ma_median (a : MaskedArr) : PyFloat :=
  if maCompressed a = [] then .nan else .num (listMedian (maCompressed a))

/-- The statistic-name dispatch of the fallback loop (lines 200-215):
the recognized names select their aggregation, anything else is
`float("nan")`. -/
def statValue (arr : MaskedArr) (s : String) : PyFloat :=
  if s = "sum" then ma_sum arr
  else if s = "mean" then ma_mean arr
  else if s = "max" then ma_max arr
  else if s = "min" then ma_min arr
  else if s = "count" then ma_count arr
  else if s = "stdev" then ma_std arr
  else if s = "median" then ma_median arr
  else .nan

/-- Assignment `d[k] = v` on a Python dict rendered as an ordered
association list: an existing key keeps its position and gets the new
value, a new key is appended. -/
def dictSet (d : List (String × PyFloat)) (k : String) (v : PyFloat) :
    List (String × PyFloat) :=
  if d.any fun p => p.1 = k then
    d.map fun p => if p.1 = k then (k, v) else p
  else d ++ [(k, v)]

/-- The `out` dict built by the fallback's loop `for s in stats: out[s] = ...`
(lines 198-216). -/
def compute_stats_fallback (arr : MaskedArr) (stats : List String) :
    List (String × PyFloat) :=
  stats.foldl (fun d s => dictSet d s (statValue arr s)) []

/-! ## The fallback's reprojection step (lines 182-187)

When the raster CRS is not geographic the polygon is reprojected before
rasterization: `xs, ys = to_crs.transform(*geom.exterior.xy);
geom_native = Polygon(zip(xs, ys))`. `T` models the
`Transformer.from_crs(WGS84, ds.crs).transform` call. -/

/-- The polygon handed to `rasterio.mask.mask` by the fallback: the input
polygon itself for a geographic CRS, otherwise `Polygon` built from the
transformed exterior coordinates alone. -/
def reprojectForMask (T : Coord → Coord) (geographic : Bool)
    (geom : Polygon) : Polygon :=
  if geographic then geom
  else { exterior := geom.exterior.map T, holes := [] }

/-- Modelled from the spec: the reprojection §4.2 describes, "reprojects the
polygon into the raster's native coordinate system" — every ring of the
polygon, interior rings of an annulus included. Used only to compare the
source's `reprojectForMask` against the specified behavior. -/
def reprojectAllRingsSpec (T : Coord → Coord) (geom : Polygon) : Polygon :=
  { exterior := geom.exterior.map T,
    holes := geom.holes.map fun r => r.map T }

/-! ## Query orchestrators (lines 221-279)

Each orchestrator iterates geometry construction and a `compute_stats`
call; a raised exception propagates, which the `Except` plumbing models.
`cs` is the statistics engine (`fun geom stats => compute_stats(...)`). -/

/-- Python `sorted(l)` for rationals: ascending stable sort. -/
def pySorted (l : List ℚ) : List ℚ := List.insertionSort (· ≤ ·) l

/-- Python `sorted(set(l))`: the distinct values in ascending order. -/
def pySortedSet (l : List ℚ) : List ℚ := List.insertionSort (· ≤ ·) l.dedup

/-- The loop of `run_circle_query` (lines 224-232) over the sorted radii:
build the geodesic circle of `r * 1000` meters, compute its stats, append
`QueryResult(label=f"{r} km", ...)`. -/
def circleResults (E : Ext) (cs : Polygon → List String → List (String × PyFloat))
    (lon lat : ℚ) (stats : List String) : List ℚ → Except String (List QueryResult)
  | [] => .ok []
  | r :: rest =>
    match geodesic_circle E.fwd lon lat (r * 1000) CIRCLE_PTS with
    | .error e => .error e
    | .ok circ =>
      match circleResults E cs lon lat stats rest with
      | .error e => .error e
      | .ok rs =>
        .ok ({ label := E.reprF r ++ " km", geometry_geojson := circ,
               stats := cs circ stats } :: rs)

/-- `run_circle_query(tif_path, lon, lat, radii_km, stats, band)`
(lines 221-233): iterate over `sorted(radii_km)`. -/
def run_circle_query (E : Ext)
    (cs : Polygon → List String → List (String × PyFloat))
    (lon lat : ℚ) (radii_km : List ℚ) (stats : List String) :
    Except String (List QueryResult) :=
  circleResults E cs lon lat stats (pySorted radii_km)

/-- The loop of `run_band_query` (lines 240-249) over the consecutive
`(edges[i], edges[i+1])` pairs: build the annulus, compute its stats,
append `QueryResult(label=f"{inner}–{outer} km", ...)` — the label's
separator is an en-dash. -/
def bandResults (E : Ext) (cs : Polygon → List String → List (String × PyFloat))
    (lon lat : ℚ) (stats : List String) :
    List (ℚ × ℚ) → Except String (List QueryResult)
  | [] => .ok []
  | (inner, outer) :: rest =>
    match geodesic_annulus E lon lat (inner * 1000) (outer * 1000) CIRCLE_PTS with
    | .error e => .error e
    | .ok ringP =>
      match bandResults E cs lon lat stats rest with
      | .error e => .error e
      | .ok rs =>
        .ok ({ label := E.reprF inner ++ "–" ++ E.reprF outer ++ " km",
               geometry_geojson := ringP, stats := cs ringP stats } :: rs)

/-- `run_band_query(tif_path, lon, lat, edges_km, stats, band)`
(lines 236-250): `edges = sorted(set(edges_km))`, then one annulus per
index `i` in `range(len(edges) - 1)` — exactly the consecutive pairs
`edges.zip edges.tail`. -/
def run_band_query (E : Ext)
    (cs : Polygon → List String → List (String × PyFloat))
    (lon lat : ℚ) (edges_km : List ℚ) (stats : List String) :
    Except String (List QueryResult) :=
  let edges := pySortedSet edges_km
  bandResults E cs lon lat stats (edges.zip edges.tail)

/-- A named comparison point (`{name, lat, lon}` dict, lines 265-266). -/
structure ComparePoint where
  name : String
  lat : ℚ
  lon : ℚ
deriving Repr, DecidableEq

/-- The loop of `run_compare_query` (lines 270-278) over the points in
input order: circle of `radius_km * 1000` meters at the point, stats
augmented as `{**vals, "_lat": pt["lat"], "_lon": pt["lon"]}` (two dict
assignments on a copy of `vals`), label is the point's name. -/
def compareResults (E : Ext)
    (cs : Polygon → List String → List (String × PyFloat))
    (radius_km : ℚ) (stats : List String) :
    List ComparePoint → Except String (List QueryResult)
  | [] => .ok []
  | pt :: rest =>
    match geodesic_circle E.fwd pt.lon pt.lat (radius_km * 1000) CIRCLE_PTS with
    | .error e => .error e
    | .ok circ =>
      match compareResults E cs radius_km stats rest with
      | .error e => .error e
      | .ok rs =>
        .ok ({ label := pt.name, geometry_geojson := circ,
               stats := dictSet (dictSet (cs circ stats) "_lat" (.num pt.lat))
                 "_lon" (.num pt.lon) } :: rs)

/-- `run_compare_query(tif_path, points, radius_km, stats, band)`
(lines 265-279). -/
def run_compare_query (E : Ext)
    (cs : Polygon → List String → List (String × PyFloat))
    (points : List ComparePoint) (radius_km : ℚ) (stats : List String) :
    Except String (List QueryResult) :=
  compareResults E cs radius_km stats points

/-! ## Server-side parameter handling (`server.py`) -/

/-- `VALID_STATS` (`server.py` line 40). -/
def VALID_STATS : List String :=
  ["sum", "mean", "max", "min", "count", "stdev", "median"]

/-- The stats handling of `_parse_query_params` (lines 118-121):
`stats = data.get("stats", ["sum"])`, keep only names in `VALID_STATS`,
fall back to `["sum"]` when the filtered list is empty. `none` models an
absent `stats` field. -/
def parse_stats (statsField : Option (List String)) : List String :=
  let stats := statsField.getD ["sum"]
  let kept := stats.filter fun s => s ∈ VALID_STATS
  if kept = [] then ["sum"] else kept

/-- The band-query endpoint's validation and dispatch (`server.py`
lines 160-167): `if len(edges) < 2: raise ValueError("Need at least 2
edges")`, the raw (not deduplicated) list's length, then
`run_band_query`. -/
def query_band (E : Ext)
    (cs : Polygon → List String → List (String × PyFloat))
    (lon lat : ℚ) (edges_km : List ℚ) (stats : List String) :
    Except String (List QueryResult) :=
  if edges_km.length < 2 then .error "Need at least 2 edges"
  else run_band_query E cs lon lat edges_km stats

/-! ## Concrete instantiations of the external-library parameters,
used to evaluate the embedding on concrete inputs. -/

/-- A concrete stand-in for `Geod.fwd` (any total function works for the
properties below, which hold for every forward-geodesic model). -/
def fwd0 : ℚ → ℚ → ℚ → ℚ → Coord :=
  fun lon lat az d => (lon + az / 360 + d, lat + d)

/-- A concrete external-library bundle. -/
def E0 : Ext :=
  { fwd := fwd0, diff := fun outer _ => outer, reprF := fun _ => "r" }

/-- A concrete statistics engine returning an empty mapping. -/
def cs0 : Polygon → List String → List (String × PyFloat) := fun _ _ => []

/-- The polygon a circle query builds for a radius in kilometers:
`geodesic_circle(lon, lat, r * 1000)` with the default 360 vertices. -/
def circleGeom (E : Ext) (lon lat r_km : ℚ) : Polygon :=
  circlePoly E.fwd lon lat (r_km * 1000) CIRCLE_PTS

/-- The polygon a band query builds for one `(inner, outer)` edge pair:
the difference of the outer and inner geodesic circles (radii in km,
converted to meters), carrying shapely's closed-ring invariant. -/
def bandGeom (E : Ext) (lon lat inner_km outer_km : ℚ) : Polygon :=
  shapelyNormalize
    (E.diff (circlePoly E.fwd lon lat (outer_km * 1000) CIRCLE_PTS)
      (circlePoly E.fwd lon lat (inner_km * 1000) CIRCLE_PTS))

/-- A concrete annulus-shaped polygon: a square exterior ring with a square
interior ring (hole). -/
def annulusWithHole : Polygon :=
  { exterior := [(0, 0), (3, 0), (3, 3), (0, 3), (0, 0)],
    holes := [[(1, 1), (2, 1), (2, 2), (1, 2), (1, 1)]] }

/-- The annulus polygon `geodesic_annulus E0 0 0 1000 2000 4` evaluates to. -/
def annP0 : Polygon :=
  shapelyNormalize
    (E0.diff (circlePoly fwd0 0 0 2000 4) (circlePoly fwd0 0 0 1000 4))

instance {ε α : Type} [DecidableEq ε] [DecidableEq α] :
    DecidableEq (Except ε α) := fun a b =>
  match a, b with
  | .ok x, .ok y =>
    if h : x = y then .isTrue (by rw [h]) else .isFalse (by simp [h])
  | .error e, .error f =>
    if h : e = f then .isTrue (by rw [h]) else .isFalse (by simp [h])
  | .ok _, .error _ => .isFalse (by simp)
  | .error _, .ok _ => .isFalse (by simp)

/-! ## Helper lemmas -/

theorem closed_append_take (l : List Coord) : closedRing (l ++ l.take 1) := by
  cases l with
  | nil => simp [closedRing]
  | cons a t =>
    show closedRing ((a :: t) ++ [a])
    unfold closedRing
    rw [List.getLast?_concat]
    rfl

theorem closed_shapelyCloseRing (r : List Coord) :
    closedRing (shapelyCloseRing r) := by
  unfold shapelyCloseRing
  split
  · assumption
  · exact closed_append_take r

theorem length_circleRing (fwd : ℚ → ℚ → ℚ → ℚ → Coord)
    (lon lat radius_m : ℚ) (n : ℕ) :
    (circleRing fwd lon lat radius_m n).length = n + min 1 n := by
  unfold circleRing
  rw [List.length_append, List.length_take, List.length_map, List.length_range]

theorem geodesic_circle_ok (fwd : ℚ → ℚ → ℚ → ℚ → Coord)
    (lon lat radius_m : ℚ) {n : ℕ} (h : 3 ≤ n) :
    geodesic_circle fwd lon lat radius_m n =
      Except.ok (circlePoly fwd lon lat radius_m n) := by
  have hn : ¬ n = 0 := by omega
  have hlen : ¬ ((circleRing fwd lon lat radius_m n).length < 4) := by
    rw [length_circleRing]; omega
  unfold geodesic_circle
  rw [if_neg hn, if_neg hlen]
  rfl

theorem geodesic_annulus_ok (E : Ext) (lon lat inner_m outer_m : ℚ)
    {n : ℕ} (h : 3 ≤ n) :
    geodesic_annulus E lon lat inner_m outer_m n =
      Except.ok (shapelyNormalize
        (E.diff (circlePoly E.fwd lon lat outer_m n)
          (circlePoly E.fwd lon lat inner_m n))) := by
  unfold geodesic_annulus
  rw [geodesic_circle_ok E.fwd lon lat outer_m h,
    geodesic_circle_ok E.fwd lon lat inner_m h]

theorem lookup_map_replace (t : List (String × PyFloat)) (j k : String)
    (v : PyFloat) :
    List.lookup k (t.map fun p => if p.1 = j then (j, v) else p) =
      if k = j then (if t.any fun p => p.1 = j then some v else none)
      else List.lookup k t := by
  induction t with
  | nil => by_cases hkj : k = j <;> simp [hkj]
  | cons p t ih =>
    obtain ⟨pk, pv⟩ := p
    simp only [List.map_cons, List.any_cons]
    by_cases hpj : pk = j
    · subst hpj
      by_cases hkj : k = pk
      · subst hkj
        simp [List.lookup_cons]
      · simp [List.lookup_cons, beq_false_of_ne hkj, hkj, ih]
    · by_cases hkp : k = pk
      · have hkj : k ≠ j := fun h => hpj (by rw [← hkp]; exact h)
        simp [List.lookup_cons, hkj, hpj, hkp]
      · have hd : decide (pk = j) = false := by simp [hpj]
        rw [if_neg hpj]
        simp only [List.lookup_cons, beq_false_of_ne hkp, ih, hd, Bool.false_or]

theorem lookup_of_not_mem_key (d : List (String × PyFloat)) (j : String)
    (h : (d.any fun p => p.1 = j) = false) : List.lookup j d = none := by
  induction d with
  | nil => rfl
  | cons p t ih =>
    simp only [List.any_cons, Bool.or_eq_false_iff] at h
    have hpj : p.1 ≠ j := by simpa using h.1
    have : (j == p.1) = false := beq_false_of_ne fun he => hpj he.symm
    simp [List.lookup, this, ih h.2]

theorem lookup_append_single (d : List (String × PyFloat)) (k j : String)
    (v : PyFloat) :
    List.lookup k (d ++ [(j, v)]) =
      match List.lookup k d with
      | some w => some w
      | none => if k = j then some v else none := by
  induction d with
  | nil =>
    by_cases hkj : k = j
    · simp [hkj, List.lookup]
    · simp [List.lookup, beq_false_of_ne hkj, hkj]
  | cons p t ih =>
    by_cases hkp : k = p.1
    · simp [List.lookup, hkp]
    · simp [List.lookup, beq_false_of_ne hkp, ih]

theorem lookup_dictSet (d : List (String × PyFloat)) (k j : String)
    (v : PyFloat) :
    List.lookup k (dictSet d j v) =
      if k = j then some v else List.lookup k d := by
  unfold dictSet
  by_cases hany : (d.any fun p => p.1 = j) = true
  · rw [if_pos hany, lookup_map_replace, hany]
    by_cases hkj : k = j <;> simp [hkj]
  · rw [if_neg hany, lookup_append_single]
    by_cases hkj : k = j
    · subst hkj
      have hf : (d.any fun p => p.1 = k) = false := by
        revert hany; cases (d.any fun p => p.1 = k) <;> simp
      rw [lookup_of_not_mem_key d k hf]
    · cases h : List.lookup k d <;> simp [hkj, h]

theorem lookup_compute_stats_fallback_aux (arr : MaskedArr)
    (stats : List String) (k : String) (d : List (String × PyFloat)) :
    List.lookup k (stats.foldl (fun d s => dictSet d s (statValue arr s)) d) =
      if k ∈ stats then some (statValue arr k) else List.lookup k d := by
  induction stats generalizing d with
  | nil => simp
  | cons s rest ih =>
    rw [List.foldl_cons, ih]
    by_cases hkr : k ∈ rest
    · simp [hkr, List.mem_cons]
    · by_cases hks : k = s
      · subst hks
        simp [hkr, lookup_dictSet]
      · simp [hkr, hks, lookup_dictSet, List.mem_cons]

/-- The output dict of the fallback's aggregation loop maps each requested
name to its `statValue` and holds nothing else. -/
theorem lookup_compute_stats_fallback (arr : MaskedArr)
    (stats : List String) (k : String) :
    List.lookup k (compute_stats_fallback arr stats) =
      if k ∈ stats then some (statValue arr k) else none := by
  unfold compute_stats_fallback
  rw [lookup_compute_stats_fallback_aux]
  rfl

theorem circleResults_eq (E : Ext)
    (cs : Polygon → List String → List (String × PyFloat))
    (lon lat : ℚ) (stats : List String) (l : List ℚ) :
    circleResults E cs lon lat stats l =
      Except.ok (l.map fun r =>
        { label := E.reprF r ++ " km",
          geometry_geojson := circleGeom E lon lat r,
          stats := cs (circleGeom E lon lat r) stats }) := by
  induction l with
  | nil => rfl
  | cons r rest ih =>
    unfold circleResults
    rw [geodesic_circle_ok E.fwd lon lat (r * 1000) (by decide), ih]
    rfl

theorem bandResults_eq (E : Ext)
    (cs : Polygon → List String → List (String × PyFloat))
    (lon lat : ℚ) (stats : List String) (l : List (ℚ × ℚ)) :
    bandResults E cs lon lat stats l =
      Except.ok (l.map fun pr =>
        { label := E.reprF pr.1 ++ "–" ++ E.reprF pr.2 ++ " km",
          geometry_geojson := bandGeom E lon lat pr.1 pr.2,
          stats := cs (bandGeom E lon lat pr.1 pr.2) stats }) := by
  induction l with
  | nil => rfl
  | cons pr rest ih =>
    obtain ⟨inner, outer⟩ := pr
    unfold bandResults
    rw [geodesic_annulus_ok E lon lat (inner * 1000) (outer * 1000) (by decide),
      ih]
    rfl

theorem compareResults_eq (E : Ext)
    (cs : Polygon → List String → List (String × PyFloat))
    (radius_km : ℚ) (stats : List String) (l : List ComparePoint) :
    compareResults E cs radius_km stats l =
      Except.ok (l.map fun pt =>
        { label := pt.name,
          geometry_geojson := circleGeom E pt.lon pt.lat radius_km,
          stats := dictSet
            (dictSet (cs (circleGeom E pt.lon pt.lat radius_km) stats)
              "_lat" (.num pt.lat)) "_lon" (.num pt.lon) }) := by
  induction l with
  | nil => rfl
  | cons pt rest ih =>
    unfold compareResults
    rw [geodesic_circle_ok E.fwd pt.lon pt.lat (radius_km * 1000) (by decide),
      ih]
    rfl

theorem pySorted_sorted (l : List ℚ) : List.Sorted (· ≤ ·) (pySorted l) :=
  List.sorted_insertionSort _ l

theorem pySorted_perm (l : List ℚ) : List.Perm (pySorted l) l :=
  List.perm_insertionSort _ l

theorem pySorted_eq_of_perm {l l' : List ℚ} (h : List.Perm l l') :
    pySorted l = pySorted l' :=
  List.eq_of_perm_of_sorted
    ((pySorted_perm l).trans (h.trans (pySorted_perm l').symm))
    (pySorted_sorted l) (pySorted_sorted l')

theorem pySortedSet_perm_dedup (l : List ℚ) : List.Perm (pySortedSet l) l.dedup :=
  List.perm_insertionSort _ l.dedup

theorem pySortedSet_nodup (l : List ℚ) : (pySortedSet l).Nodup :=
  (pySortedSet_perm_dedup l).nodup_iff.mpr (List.nodup_dedup l)

theorem pySortedSet_sorted_lt (l : List ℚ) :
    List.Sorted (· < ·) (pySortedSet l) :=
  List.Sorted.lt_of_le (List.sorted_insertionSort _ l.dedup)
    (pySortedSet_nodup l)

theorem statValue_of_not_recognized (arr : MaskedArr) (s : String)
    (h : s ∉ VALID_STATS) : statValue arr s = PyFloat.nan := by
  simp only [VALID_STATS, List.mem_cons, List.not_mem_nil, or_false,
    not_or] at h
  obtain ⟨h1, h2, h3, h4, h5, h6, h7⟩ := h
  unfold statValue
  rw [if_neg h1, if_neg h2, if_neg h3, if_neg h4, if_neg h5, if_neg h6,
    if_neg h7]

/-! ## Claims -/

/-- C1 (as stated, refuted): the band query is claimed to fail with a
ValidationError whenever the edge list has fewer than 2 distinct values
after deduplication, in particular for an input of exactly 2 duplicate
values. On the code, `[5, 5]` passes the server's raw-length check
(`len(edges) < 2` is tested before deduplication) and the query returns
`ok []` — no error — even though only 1 distinct value remains. -/
theorem band_query_duplicate_edges_no_error :
    query_band E0 cs0 0 0 [(5 : ℚ), 5] ["sum"] = Except.ok [] ∧
    (pySortedSet [(5 : ℚ), 5]).length = 1 := by
  constructor
  · rfl
  · rfl

/-- C1 (amended): the band query fails with the ValidationError
"Need at least 2 edges" exactly when the raw input list has fewer than 2
elements — the check precedes deduplication; a list of at least 2
elements with only 1 distinct value passes validation and produces an
empty result list. -/
theorem band_query_raw_length_validation :
    ∀ (E : Ext) (cs : Polygon → List String → List (String × PyFloat))
      (lon lat : ℚ) (edges_km : List ℚ) (stats : List String),
      (edges_km.length < 2 →
        query_band E cs lon lat edges_km stats =
          Except.error "Need at least 2 edges") ∧
      (2 ≤ edges_km.length → (pySortedSet edges_km).length = 1 →
        query_band E cs lon lat edges_km stats = Except.ok []) := by
  intro E cs lon lat edges_km stats
  constructor
  · intro h
    unfold query_band
    rw [if_pos h]
  · intro h2 h1
    unfold query_band
    rw [if_neg (by omega)]
    unfold run_band_query
    obtain ⟨a, ha⟩ := List.length_eq_one.mp h1
    rw [ha]
    rfl

/-- Witness for the amended C1 at the concrete input `[5, 5]`. -/
theorem band_query_raw_length_validation_witness :
    2 ≤ ([(5 : ℚ), 5] : List ℚ).length ∧
    (pySortedSet [(5 : ℚ), 5]).length = 1 ∧
    query_band E0 cs0 0 0 [(5 : ℚ), 5] ["sum"] = Except.ok [] :=
  ⟨by decide, by rfl,
    (band_query_raw_length_validation E0 cs0 0 0 [(5 : ℚ), 5] ["sum"]).2
      (by decide) (by rfl)⟩

/-- C2: a band query whose edge list has `N ≥ 2` distinct values first
deduplicates and sorts the edges ascending (`pySortedSet` is a
permutation of the deduplicated input and strictly increasing), then
returns exactly `N - 1` results; the i-th result's geometry is the
annulus between sorted edge `i` (inner) and edge `i+1` (outer), and its
label is the inner and outer values joined by an en-dash, suffixed
" km". -/
theorem band_query_consecutive_annuli :
    ∀ (E : Ext) (cs : Polygon → List String → List (String × PyFloat))
      (lon lat : ℚ) (edges_km : List ℚ) (stats : List String),
      2 ≤ (pySortedSet edges_km).length →
      ∃ rs, run_band_query E cs lon lat edges_km stats = Except.ok rs ∧
        rs.length = (pySortedSet edges_km).length - 1 ∧
        List.Sorted (· < ·) (pySortedSet edges_km) ∧
        List.Perm (pySortedSet edges_km) edges_km.dedup ∧
        ∀ (i : ℕ) (a b : ℚ), (pySortedSet edges_km)[i]? = some a →
          (pySortedSet edges_km)[i + 1]? = some b →
          rs[i]? = some
            { label := E.reprF a ++ "–" ++ E.reprF b ++ " km",
              geometry_geojson := bandGeom E lon lat a b,
              stats := cs (bandGeom E lon lat a b) stats } := by
  intro E cs lon lat edges_km stats _
  unfold run_band_query
  rw [bandResults_eq]
  refine ⟨_, rfl, ?_, pySortedSet_sorted_lt edges_km,
    pySortedSet_perm_dedup edges_km, ?_⟩
  · rw [List.length_map, List.length_zip, List.length_tail]
    omega
  · intro i a b ha hb
    have hzip : ((pySortedSet edges_km).zip (pySortedSet edges_km).tail)[i]? =
        some (a, b) := by
      rw [List.getElem?_zip_eq_some]
      exact ⟨ha, by rw [List.getElem?_tail]; exact hb⟩
    rw [List.getElem?_map, hzip]
    rfl

/-- Witness for C2 at the concrete input `[2, 1, 2]` (distinct edges 1, 2). -/
theorem band_query_consecutive_annuli_witness :
    2 ≤ (pySortedSet [(2 : ℚ), 1, 2]).length ∧
    (∃ rs, run_band_query E0 cs0 0 0 [(2 : ℚ), 1, 2] ["sum"] = Except.ok rs ∧
      rs.length = (pySortedSet [(2 : ℚ), 1, 2]).length - 1 ∧
      List.Sorted (· < ·) (pySortedSet [(2 : ℚ), 1, 2]) ∧
      List.Perm (pySortedSet [(2 : ℚ), 1, 2]) ([(2 : ℚ), 1, 2]).dedup ∧
      ∀ (i : ℕ) (a b : ℚ), (pySortedSet [(2 : ℚ), 1, 2])[i]? = some a →
        (pySortedSet [(2 : ℚ), 1, 2])[i + 1]? = some b →
        rs[i]? = some
          { label := E0.reprF a ++ "–" ++ E0.reprF b ++ " km",
            geometry_geojson := bandGeom E0 0 0 a b,
            stats := cs0 (bandGeom E0 0 0 a b) ["sum"] }) :=
  ⟨by decide,
    band_query_consecutive_annuli E0 cs0 0 0 [(2 : ℚ), 1, 2] ["sum"]
      (by decide)⟩

/-- C3: the circle query maps the ascending sort of the input radii list
to results in that order — one result per input radius (duplicates
included), labeled with the radius and " km" — so its output depends only
on the multiset of radii and is invariant under permutation of the
input. -/
theorem circle_query_sorted_results :
    ∀ (E : Ext) (cs : Polygon → List String → List (String × PyFloat))
      (lon lat : ℚ) (radii_km : List ℚ) (stats : List String),
      (∃ rs, run_circle_query E cs lon lat radii_km stats = Except.ok rs ∧
        rs.length = radii_km.length ∧
        List.Sorted (· ≤ ·) (pySorted radii_km) ∧
        List.Perm (pySorted radii_km) radii_km ∧
        ∀ (i : ℕ) (r : ℚ), (pySorted radii_km)[i]? = some r →
          rs[i]? = some
            { label := E.reprF r ++ " km",
              geometry_geojson := circleGeom E lon lat r,
              stats := cs (circleGeom E lon lat r) stats }) ∧
      ∀ radii2 : List ℚ, List.Perm radii_km radii2 →
        run_circle_query E cs lon lat radii_km stats =
          run_circle_query E cs lon lat radii2 stats := by
  intro E cs lon lat radii_km stats
  constructor
  · unfold run_circle_query
    rw [circleResults_eq]
    refine ⟨_, rfl, ?_, pySorted_sorted radii_km, pySorted_perm radii_km, ?_⟩
    · rw [List.length_map, (pySorted_perm radii_km).length_eq]
    · intro i r hr
      rw [List.getElem?_map, hr]
      rfl
  · intro radii2 h
    unfold run_circle_query
    rw [pySorted_eq_of_perm h]

/-- Witness for C3 at the concrete inputs `[2, 1]` and `[1, 2]`. -/
theorem circle_query_sorted_results_witness :
    List.Perm ([(2 : ℚ), 1] : List ℚ) [(1 : ℚ), 2] ∧
    run_circle_query E0 cs0 0 0 [(2 : ℚ), 1] ["sum"] =
      run_circle_query E0 cs0 0 0 [(1 : ℚ), 2] ["sum"] :=
  ⟨by decide,
    (circle_query_sorted_results E0 cs0 0 0 [(2 : ℚ), 1] ["sum"]).2
      [(1 : ℚ), 2] (by decide)⟩

/-- C4: the compare query returns one result per input point, in input
order, labeled by the point's name, and each result's stats mapping binds
the reserved keys "_lat" and "_lon" to exactly the input point's latitude
and longitude. -/
theorem compare_query_order_and_metadata :
    ∀ (E : Ext) (cs : Polygon → List String → List (String × PyFloat))
      (points : List ComparePoint) (radius_km : ℚ) (stats : List String),
      ∃ rs, run_compare_query E cs points radius_km stats = Except.ok rs ∧
        rs.length = points.length ∧
        ∀ (i : ℕ) (pt : ComparePoint), points[i]? = some pt →
          ∃ res, rs[i]? = some res ∧
            res.label = pt.name ∧
            List.lookup "_lat" res.stats = some (PyFloat.num pt.lat) ∧
            List.lookup "_lon" res.stats = some (PyFloat.num pt.lon) := by
  intro E cs points radius_km stats
  unfold run_compare_query
  rw [compareResults_eq]
  refine ⟨_, rfl, by rw [List.length_map], ?_⟩
  intro i pt hpt
  rw [List.getElem?_map, hpt]
  refine ⟨_, rfl, rfl, ?_, ?_⟩
  · rw [lookup_dictSet, if_neg (by decide), lookup_dictSet, if_pos rfl]
  · rw [lookup_dictSet, if_pos rfl]

/-- Witness for C4 at a concrete two-point input. -/
theorem compare_query_order_and_metadata_witness :
    (([⟨"a", 10, 20⟩, ⟨"b", 30, 40⟩] : List ComparePoint))[0]? =
      some ⟨"a", 10, 20⟩ ∧
    ∃ rs, run_compare_query E0 cs0 [⟨"a", 10, 20⟩, ⟨"b", 30, 40⟩] 5 ["sum"] =
        Except.ok rs ∧
      rs.length = ([⟨"a", 10, 20⟩, ⟨"b", 30, 40⟩] : List ComparePoint).length ∧
      ∀ (i : ℕ) (pt : ComparePoint),
        (([⟨"a", 10, 20⟩, ⟨"b", 30, 40⟩] : List ComparePoint))[i]? = some pt →
        ∃ res, rs[i]? = some res ∧
          res.label = pt.name ∧
          List.lookup "_lat" res.stats = some (PyFloat.num pt.lat) ∧
          List.lookup "_lon" res.stats = some (PyFloat.num pt.lon) :=
  ⟨by decide,
    compare_query_order_and_metadata E0 cs0 [⟨"a", 10, 20⟩, ⟨"b", 30, 40⟩]
      5 ["sum"]⟩

/-- C5 (claim refuted, code bug): in the mask-and-aggregate fallback with a
non-geographic raster CRS, the polygon handed to rasterization is NOT the
reprojection of the whole input polygon: the source transforms only
`geom.exterior` and builds `Polygon(zip(xs, ys))`, so every interior ring
(the hole of an annulus) is dropped — the holes of the reprojected
polygon are always `[]`, and on a concrete annulus the result differs
from the reprojection of all rings that the spec describes. -/
theorem fallback_reprojection_drops_holes :
    (∀ (T : Coord → Coord) (geom : Polygon),
      (reprojectForMask T false geom).holes = []) ∧
    reprojectForMask (fun c => c) false annulusWithHole ≠
      reprojectAllRingsSpec (fun c => c) annulusWithHole ∧
    annulusWithHole.holes ≠ [] := by
  refine ⟨fun T geom => rfl, by decide, by decide⟩

/-- C6: in the fallback of `compute_stats`, a requested statistic name
outside the recognized set yields NaN for that name, and every requested
name — recognized or not — still receives its value (the computation of
the other statistics does not fail). -/
theorem compute_stats_unrecognized_nan :
    ∀ (arr : MaskedArr) (stats : List String) (s : String),
      s ∈ stats → s ∉ VALID_STATS →
      List.lookup s (compute_stats_fallback arr stats) = some PyFloat.nan ∧
      ∀ t ∈ stats, List.lookup t (compute_stats_fallback arr stats) =
        some (statValue arr t) := by
  intro arr stats s hs hns
  constructor
  · rw [lookup_compute_stats_fallback, if_pos hs,
      statValue_of_not_recognized arr s hns]
  · intro t ht
    rw [lookup_compute_stats_fallback, if_pos ht]

/-- Witness for C6 at a concrete input with the unrecognized name "bogus". -/
theorem compute_stats_unrecognized_nan_witness :
    ("bogus" ∈ ["sum", "bogus"]) ∧ ("bogus" ∉ VALID_STATS) ∧
    List.lookup "bogus"
        (compute_stats_fallback [((1 : ℚ), false)] ["sum", "bogus"]) =
      some PyFloat.nan ∧
    ∀ t ∈ ["sum", "bogus"],
      List.lookup t (compute_stats_fallback [((1 : ℚ), false)] ["sum", "bogus"]) =
        some (statValue [((1 : ℚ), false)] t) :=
  ⟨by decide, by decide,
    (compute_stats_unrecognized_nan [((1 : ℚ), false)] ["sum", "bogus"] "bogus"
      (by decide) (by decide)).1,
    (compute_stats_unrecognized_nan [((1 : ℚ), false)] ["sum", "bogus"] "bogus"
      (by decide) (by decide)).2⟩

/-- C7 (claim refuted, code bug): on the fallback path, a coverage of zero
contributing pixels (here: every pixel masked, a polygon entirely over
nodata) yields `count = 0` and NaN for `mean`/`stdev`/`median` as the
claim says, but `sum` is NaN as well — not the claimed 0 — because numpy's
fully-masked `arr.sum()` is the masked constant and `float()` of it is
NaN. (A polygon entirely outside the raster bounds does not even reach
the aggregation: `rasterio.mask.mask(..., crop=True)` raises ValueError
"Input shapes do not overlap raster".) -/
theorem compute_stats_all_masked_sum_is_nan :
    List.lookup "sum" (compute_stats_fallback
        [((1 : ℚ), true), ((2 : ℚ), true)]
        ["sum", "count", "mean", "stdev", "median"]) = some PyFloat.nan ∧
    List.lookup "count" (compute_stats_fallback
        [((1 : ℚ), true), ((2 : ℚ), true)]
        ["sum", "count", "mean", "stdev", "median"]) =
      some (PyFloat.num 0) ∧
    List.lookup "mean" (compute_stats_fallback
        [((1 : ℚ), true), ((2 : ℚ), true)]
        ["sum", "count", "mean", "stdev", "median"]) = some PyFloat.nan ∧
    List.lookup "stdev" (compute_stats_fallback
        [((1 : ℚ), true), ((2 : ℚ), true)]
        ["sum", "count", "mean", "stdev", "median"]) = some PyFloat.nan ∧
    List.lookup "median" (compute_stats_fallback
        [((1 : ℚ), true), ((2 : ℚ), true)]
        ["sum", "count", "mean", "stdev", "median"]) = some PyFloat.nan ∧
    PyFloat.nan ≠ PyFloat.num 0 := by
  refine ⟨by decide, by decide, by decide, by decide, by decide, by decide⟩

/-- C8: every polygon ring the system produces is closed — the ring built
by `geodesic_circle` (for every vertex count), the raster-bounds ring
built at load time, the rectangle ring from `rect_from_center`, and every
ring of a polygon returned by `geodesic_annulus` (whose rings carry
shapely's `LinearRing` closure invariant). -/
theorem produced_rings_closed :
    (∀ (fwd : ℚ → ℚ → ℚ → ℚ → Coord) (lon lat radius_m : ℚ) (n : ℕ),
      closedRing (circleRing fwd lon lat radius_m n)) ∧
    (∀ (toWgs : Coord → Coord) (geographic : Bool) (left bottom right top : ℚ),
      closedRing (boundsRing toWgs geographic left bottom right top)) ∧
    (∀ (fwd : ℚ → ℚ → ℚ → ℚ → Coord) (lon lat half_w_m half_h_m : ℚ),
      ∀ ring ∈ ringsOf (rect_from_center fwd lon lat half_w_m half_h_m),
        closedRing ring) ∧
    (∀ (E : Ext) (lon lat inner_m outer_m : ℚ) (n : ℕ) (p : Polygon),
      geodesic_annulus E lon lat inner_m outer_m n = Except.ok p →
      ∀ ring ∈ ringsOf p, closedRing ring) := by
  refine ⟨?_, ?_, ?_, ?_⟩
  · intro fwd lon lat radius_m n
    exact closed_append_take _
  · intro toWgs geographic left bottom right top
    exact closed_append_take _
  · intro fwd lon lat half_w_m half_h_m ring hring
    simp only [rect_from_center, shapelyBox, ringsOf, List.mem_cons,
      List.not_mem_nil, or_false] at hring
    subst hring
    rfl
  · intro E lon lat inner_m outer_m n p hp ring hring
    unfold geodesic_annulus at hp
    split at hp
    · exact absurd hp (by simp)
    · split at hp
      · exact absurd hp (by simp)
      · rw [Except.ok.injEq] at hp
        subst hp
        simp only [shapelyNormalize, ringsOf, List.mem_cons,
          List.mem_map] at hring
        rcases hring with h | ⟨r', _, h⟩
        · rw [h]; exact closed_shapelyCloseRing _
        · rw [← h]; exact closed_shapelyCloseRing _

/-- Witness for C8: closure evaluated on concrete circle, bounds,
rectangle and annulus rings. -/
theorem produced_rings_closed_witness :
    closedRing (circleRing fwd0 0 0 (-5) 7) ∧
    closedRing (boundsRing (fun c => c) true 0 0 1 1) ∧
    closedRing (rect_from_center fwd0 0 0 1 1).exterior ∧
    closedRing annP0.exterior :=
  ⟨produced_rings_closed.1 fwd0 0 0 (-5) 7,
    produced_rings_closed.2.1 (fun c => c) true 0 0 1 1,
    produced_rings_closed.2.2.1 fwd0 0 0 1 1
      (rect_from_center fwd0 0 0 1 1).exterior (List.mem_cons_self _ _),
    produced_rings_closed.2.2.2 E0 0 0 1000 2000 4 annP0 rfl
      annP0.exterior (List.mem_cons_self _ _)⟩

/-- C9: `geodesic_circle` with the default 360 vertices returns normally —
it produces the circle polygon, hitting no raise site — for every center
and every radius ≤ 0 (zero or negative): `Geod.fwd` is total for such
distances and the 361-coordinate ring passes shapely's minimum-length
check. -/
theorem geodesic_circle_nonpositive_radius_ok :
    ∀ (fwd : ℚ → ℚ → ℚ → ℚ → Coord) (lon lat radius_m : ℚ),
      radius_m ≤ 0 →
      geodesic_circle fwd lon lat radius_m CIRCLE_PTS =
        Except.ok (circlePoly fwd lon lat radius_m CIRCLE_PTS) :=
  fun fwd lon lat radius_m _ =>
    geodesic_circle_ok fwd lon lat radius_m (by decide)

/-- Witness for C9 at radius −1. -/
theorem geodesic_circle_nonpositive_radius_ok_witness :
    ((-1 : ℚ) ≤ 0) ∧
    geodesic_circle fwd0 0 0 (-1) CIRCLE_PTS =
      Except.ok (circlePoly fwd0 0 0 (-1) CIRCLE_PTS) :=
  ⟨by norm_num,
    geodesic_circle_nonpositive_radius_ok fwd0 0 0 (-1) (by norm_num)⟩

/-- C10: the server-side stats parsing keeps only names from the
recognized vocabulary `VALID_STATS`, silently dropping the rest; an
absent stats field or an all-dropped list is replaced by `["sum"]`; hence
the parsed list is never empty and every name in it is recognized. -/
theorem parse_stats_filters_and_defaults :
    ∀ statsField : Option (List String),
      parse_stats statsField ≠ [] ∧
      (∀ s ∈ parse_stats statsField, s ∈ VALID_STATS) ∧
      parse_stats none = ["sum"] ∧
      (∀ l : List String, (l.filter fun s => s ∈ VALID_STATS) ≠ [] →
        parse_stats (some l) = l.filter fun s => s ∈ VALID_STATS) ∧
      (∀ l : List String, (l.filter fun s => s ∈ VALID_STATS) = [] →
        parse_stats (some l) = ["sum"]) := by
  intro statsField
  refine ⟨?_, ?_, by decide, ?_, ?_⟩
  · unfold parse_stats
    dsimp only
    split
    · simp
    · assumption
  · unfold parse_stats
    dsimp only
    split
    · intro s hs
      rw [List.mem_singleton.mp hs]
      decide
    · intro s hs
      exact of_decide_eq_true (List.mem_filter.mp hs).2
  · intro l h
    unfold parse_stats
    dsimp only [Option.getD_some]
    rw [if_neg h]
  · intro l h
    unfold parse_stats
    dsimp only [Option.getD_some]
    rw [if_pos h]

/-- Witness for C10 at the concrete input `["bogus", "mean"]`. -/
theorem parse_stats_filters_and_defaults_witness :
    ((["bogus", "mean"] : List String).filter fun s => s ∈ VALID_STATS) ≠ [] ∧
    parse_stats (some ["bogus", "mean"]) =
      (["bogus", "mean"] : List String).filter fun s => s ∈ VALID_STATS :=
  ⟨by decide,
    (parse_stats_filters_and_defaults (some ["bogus", "mean"])).2.2.2.1
      ["bogus", "mean"] (by decide)⟩

end GeoAnalyzer
